import Mathlib

/-!
Shallow embedding of the uefi-bootloader sources (context.rs, main.rs and
the older lib.rs) together with proofs settling the frozen claims about
the natural-language specification of the repository.
-/

namespace UefiBoot

/-- Page size of the x86_64 granule used throughout the bootloader. -/
def PAGE_SIZE : Nat := 4096

/-- Fields of a goblin elf64 program header used by the segment loader. -/
structure ProgramHeader where
  p_flags : Nat
  p_vaddr : Nat
  p_paddr : Nat
  p_filesz : Nat
  p_memsz : Nat
deriving DecidableEq

/-- Modelled from the spec: the PteFlags type lives in the memory module,
which is not among the given source files; spec section 3 describes it as
a small flag set containing present, writable and no-execute, built up by
setter calls from an empty value. -/
structure PteFlags where
  present : Bool
  writable : Bool
  no_execute : Bool
deriving DecidableEq

/-- Empty flag set, the value PteFlags.new starts from. -/
def PteFlags.new : PteFlags := ⟨false, false, false⟩

/-- Builder setter for the present flag. -/
def PteFlags.set_present (f : PteFlags) (b : Bool) : PteFlags := { f with present := b }

/-- Builder setter for the writable flag. -/
def PteFlags.set_writable (f : PteFlags) (b : Bool) : PteFlags := { f with writable := b }

/-- Builder setter for the no-execute flag. -/
def PteFlags.set_no_execute (f : PteFlags) (b : Bool) : PteFlags := { f with no_execute := b }

/-- Flag derivation performed by BootContext.map_segment, context.rs
lines 136 to 146: start from an empty flag set, set present, set
no-execute when bit 0 of p_flags is clear, set writable when bit 1 of
p_flags is set. -/
def map_segment_flags (p_flags : Nat) : PteFlags :=
  let flags := PteFlags.new.set_present true
  let flags := if p_flags &&& 0x1 = 0 then flags.set_no_execute true else flags
  let flags := if p_flags &&& 0x2 ≠ 0 then flags.set_writable true else flags
  flags

/-- Byte-level model of the zeroing write at context.rs line 84: the
first count bytes of the allocation become zero, the rest keep their
previous contents. -/
def write_bytes (raw : List Nat) (count : Nat) : List Nat :=
  List.replicate count 0 ++ raw.drop count

/-- Modelled from the spec: calculate_pages lives in the util module,
which is not among the given source files; it is the page count needed to
hold the given number of bytes (context.rs line 76). -/
def calculate_pages (bytes_len : Nat) : Nat := (bytes_len + PAGE_SIZE - 1) / PAGE_SIZE

/-- BootContext.allocate_slice_inner at byte element type, as exposed by
allocate_byte_slice (context.rs lines 69 to 102): the firmware page
allocation returns raw memory with arbitrary prior contents, the zeroing
write clears the requested bytes, and the returned slice covers exactly
len bytes starting at the allocation. -/
def allocate_byte_slice (len : Nat) (raw : List Nat) : List Nat :=
  (write_bytes raw len).take len

/-- Allocation strategies accepted by the firmware page-allocation call. -/
inductive AllocateType where
  | AnyPages : AllocateType
  | Address : Nat → AllocateType
deriving DecidableEq

/-- Allocation strategy chosen by BootContext.map_segment for a segment
(context.rs lines 104 to 116): the single fixed physical load address
0x100000 gets a fixed-address allocation, every other segment an
any-pages allocation. -/
def map_segment_allocate_type (s : ProgramHeader) : AllocateType :=
  if s.p_paddr = 0x100000 then AllocateType.Address 0x100000 else AllocateType.AnyPages

/-- Modelled from the spec: the firmware memory service behind
allocate_pages is an external collaborator (spec section 6); a
fixed-address request lands at exactly that address, an any-pages request
at a firmware-chosen address. -/
def allocation_base (t : AllocateType) (chosen : Nat) : Nat :=
  match t with
  | AllocateType.Address a => a
  | AllocateType.AnyPages => chosen

/-- Virtual end address computed at context.rs line 121, with the machine
subtraction tracked over the integers so that underflow is visible. -/
def virtual_end_inclusive (vaddr memsz : Nat) : Int :=
  (vaddr : Int) + (memsz : Int) - 1

/-- Physical end address computed at context.rs line 124, over the
integers. -/
def physical_end_inclusive (paddr memsz : Nat) : Int :=
  (paddr : Int) + (memsz : Int) - 1

/-- Modelled from the spec: containing_address lives in the memory
module, which is not among the given source files; spec section 3 says it
rounds an address down to the granule. -/
def containing_address (a : Nat) : Nat := a / PAGE_SIZE * PAGE_SIZE

/-- Vendor GUIDs appearing in the firmware configuration table; the
bootloader distinguishes the two ACPI GUIDs from everything else. -/
inductive Guid where
  | acpi2 : Guid
  | acpi : Guid
  | other : Nat → Guid
deriving DecidableEq

/-- One entry of the firmware configuration table. -/
structure ConfigTableEntry where
  guid : Guid
  address : Nat
deriving DecidableEq

/-- Behaviour of the find method on a mutable iterator: entries are
consumed up to and including the first match, the match is returned with
the iterator positioned after it, and with no match the iterator ends
exhausted. -/
def find_consume (p : α → Bool) : List α → Option α × List α
  | [] => (none, [])
  | x :: xs => if p x then (some x, xs) else find_consume p xs

/-- The function get_rsdp_address from main.rs lines 142 to 149: a single
mutable iterator over the configuration table is searched first for the
ACPI 2 GUID, and when that search fails the very same, already advanced,
iterator is searched for the ACPI 1 GUID. -/
def get_rsdp_address (entries : List ConfigTableEntry) : Option Nat :=
  let r2 := find_consume (fun e : ConfigTableEntry => e.guid == Guid.acpi2) entries
  let rsdp := match r2.1 with
    | some e => some e
    | none => (find_consume (fun e : ConfigTableEntry => e.guid == Guid.acpi) r2.2).1
  rsdp.map (fun e => e.address)

/-- Pixel formats reported by the firmware graphics output protocol. -/
inductive GopPixelFormat where
  | Rgb : GopPixelFormat
  | Bgr : GopPixelFormat
  | Bitmask : GopPixelFormat
  | BltOnly : GopPixelFormat
deriving DecidableEq

/-- Pixel formats the bootloader reports to the kernel. -/
inductive PixelFormat where
  | Rgb : PixelFormat
  | Bgr : PixelFormat
deriving DecidableEq

/-- Frame-buffer descriptor handed to the kernel, from the
uefi-bootloader-api crate. -/
structure FrameBufferInfo where
  size : Nat
  width : Nat
  height : Nat
  pixel_format : PixelFormat
  bytes_per_pixel : Nat
  stride : Nat
deriving DecidableEq

/-- Frame buffer start address together with its descriptor. -/
structure FrameBuffer where
  start : Nat
  info : FrameBufferInfo
deriving DecidableEq

/-- Firmware-side graphics mode as observed through the graphics output
protocol. -/
structure GopMode where
  fb_start : Nat
  fb_size : Nat
  width : Nat
  height : Nat
  stride : Nat
  pixel_format : GopPixelFormat
deriving DecidableEq

/-- Reasons the boot path dies fatally. -/
inductive PanicReason where
  | unsupportedPixelFormat : PanicReason
deriving DecidableEq

/-- The function get_frame_buffer from main.rs lines 98 to 129: a
missing graphics output protocol yields none, a Bitmask or BltOnly pixel
format dies fatally, and otherwise a descriptor with bytes_per_pixel 4
and the matching Rgb or Bgr tag is built. -/
def get_frame_buffer (gop : Option GopMode) : Except PanicReason (Option FrameBuffer) :=
  match gop with
  | none => Except.ok none
  | some mode =>
    match mode.pixel_format with
    | GopPixelFormat.Bitmask => Except.error PanicReason.unsupportedPixelFormat
    | GopPixelFormat.BltOnly => Except.error PanicReason.unsupportedPixelFormat
    | GopPixelFormat.Rgb =>
      Except.ok (some ⟨mode.fb_start,
        ⟨mode.fb_size, mode.width, mode.height, PixelFormat.Rgb, 4, mode.stride⟩⟩)
    | GopPixelFormat.Bgr =>
      Except.ok (some ⟨mode.fb_start,
        ⟨mode.fb_size, mode.width, mode.height, PixelFormat.Bgr, 4, mode.stride⟩⟩)

/-- Observable progress of the boot path: whether the framebuffer logger
was installed and whether kernel loading and mapping work started. -/
structure BootTrace where
  logger_initialized : Bool
  mapping_work_started : Bool
deriving DecidableEq

/-- Prefix of main, main.rs lines 40 to 70, restricted to the order of
logger initialisation and mapping work: the frame buffer is discovered
first, the logger is installed only when a frame buffer was returned, and
kernel loading and mapping start only afterwards; a fatal error carries
the trace at the point it happened. -/
def main_boot_phase (gop : Option GopMode) : Except (PanicReason × BootTrace) BootTrace :=
  let t0 : BootTrace := ⟨false, false⟩
  match get_frame_buffer gop with
  | Except.error p => Except.error (p, t0)
  | Except.ok fb =>
    let t1 : BootTrace := ⟨fb.isSome, false⟩
    let t2 : BootTrace := ⟨t1.logger_initialized, true⟩
    Except.ok t2

/-- Used-range ledger of the page allocator, spec section 3; for the
lifecycle claims only its identity matters. -/
structure PageAllocator where
  used_ranges : List (Nat × Nat)
deriving DecidableEq

/-- The mapper owns the root page-table frame, spec section 4.3; for the
lifecycle claims only its identity matters. -/
structure Mapper where
  root_frame : Nat
deriving DecidableEq

/-- Region kind of a memory-map descriptor. -/
inductive RegionKind where
  | usable : RegionKind
  | reserved : RegionKind
  | loader : RegionKind
  | mmio : RegionKind
deriving DecidableEq

/-- One descriptor of the firmware memory map. -/
structure MemoryDescriptor where
  start : Nat
  len : Nat
  kind : RegionKind
deriving DecidableEq

/-- Frame allocator over the captured memory-map snapshot. -/
structure LegacyFrameAllocator where
  memory_map : List MemoryDescriptor
  cursor : Nat
deriving DecidableEq

/-- Modelled from the spec: the constructor of LegacyFrameAllocator lives
in the memory module, which is not among the given source files; spec
section 4.1 says it wraps the immutable snapshot and starts a cursor at
the beginning. -/
def LegacyFrameAllocator.new (memory_map : List MemoryDescriptor) : LegacyFrameAllocator :=
  ⟨memory_map, 0⟩

/-- Firmware memory-map state at the moment of the exit call: the
reported map size in bytes, the descriptor size, the final snapshot the
firmware would hand back, and the number of descriptors the exit call
itself adds to the map. -/
structure FirmwareMemory where
  map_size : Nat
  entry_size : Nat
  final_map : List MemoryDescriptor
  growth_entries : Nat
deriving DecidableEq

/-- Boot-phase context, context.rs lines 24 to 29, with the firmware
memory-map state standing in for the system table handle. -/
structure BootContext where
  page_allocator : PageAllocator
  mapper : Mapper
  firmware : FirmwareMemory
deriving DecidableEq

/-- Runtime-phase context, context.rs lines 186 to 190. -/
structure RuntimeContext where
  page_allocator : PageAllocator
  frame_allocator : LegacyFrameAllocator
  mapper : Mapper
deriving DecidableEq

/-- Failure of the one-shot firmware exit call. -/
inductive FirmwareError where
  | bufferTooSmall : FirmwareError
deriving DecidableEq

/-- Storage size computed at context.rs lines 163 to 167: the reported
map size plus room for four extra descriptors. -/
def predicted_map_size (map_size entry_size : Nat) : Nat :=
  map_size + 4 * entry_size

/-- Modelled from the spec: the one-shot firmware exit call is an
external uefi service not among the given source files; it hands back the
final memory map when the map, grown by the entries the exit call itself
added, fits the supplied storage, and fails otherwise, which spec
section 8 scenario B calls a fatal firmware error. -/
def firmware_exit_fits (map_size entry_size growth_entries storage_len : Nat) : Bool :=
  map_size + growth_entries * entry_size ≤ storage_len

/-- BootContext.exit_boot_services, context.rs lines 162 to 182: allocate
snapshot storage of predicted_map_size bytes, perform the one-shot exit,
and on success build the runtime context, moving the page allocator and
the mapper across and wrapping the captured snapshot in a fresh frame
allocator. -/
def BootContext.exit_boot_services (ctx : BootContext) : Except FirmwareError RuntimeContext :=
  if firmware_exit_fits ctx.firmware.map_size ctx.firmware.entry_size
      ctx.firmware.growth_entries
      (predicted_map_size ctx.firmware.map_size ctx.firmware.entry_size) then
    Except.ok
      { page_allocator := ctx.page_allocator
        frame_allocator := LegacyFrameAllocator.new ctx.firmware.final_map
        mapper := ctx.mapper }
  else
    Except.error FirmwareError.bufferTooSmall

/-- Output sinks a panic diagnostic can reach. -/
inductive PanicSink where
  | console : PanicSink
  | framebufferLogger : PanicSink
deriving DecidableEq

/-- Ways the panic handler could hand off control. -/
inductive PanicTerminal where
  | halt : PanicTerminal
  | returnToFirmware : PanicTerminal
deriving DecidableEq

/-- Console write performed by the panic handler when the process-wide
system-table slot is still set, main.rs lines 163 to 167. -/
def console_diagnostic (slot_set : Bool) (outputs : List PanicSink) : List PanicSink :=
  if slot_set then outputs ++ [PanicSink.console] else outputs

/-- The error log statement at main.rs line 173: the log facade forwards
to the framebuffer logger exactly when init_logger installed one, and is
a no-op otherwise. -/
def logger_diagnostic (logger_set : Bool) (outputs : List PanicSink) : List PanicSink :=
  if logger_set then outputs ++ [PanicSink.framebufferLogger] else outputs

/-- The panic handler, main.rs lines 160 to 176: write the diagnostic to
the console when the system-table slot is set, then to the framebuffer
logger when one was installed, then halt; the halt call, spelled out as
the idle loop at lib.rs lines 117 to 119, never returns control to the
firmware. -/
def panic_handler (slot_set logger_set : Bool) : List PanicSink × PanicTerminal :=
  let outputs := console_diagnostic slot_set []
  let outputs := logger_diagnostic logger_set outputs
  (outputs, PanicTerminal.halt)

/-- C2: at a configuration table that holds a single ACPI 1.x entry and
no ACPI 2.x entry, get_rsdp_address returns none, although the claim, the
comment in the source and the spec all say the ACPI 1.x entry address is
the fallback result: the fallback search runs on the iterator already
exhausted by the ACPI 2.x search, so it can never find anything. -/
theorem get_rsdp_address_misses_acpi1 :
    get_rsdp_address [⟨Guid.acpi, 0x1234⟩] = none ∧
    get_rsdp_address [⟨Guid.other 7, 0⟩, ⟨Guid.acpi, 0x1234⟩] = none ∧
    get_rsdp_address [⟨Guid.acpi, 0x1234⟩, ⟨Guid.acpi2, 0x5678⟩] = some 0x5678 := by
  decide

/-- C3: map_segment derives the page-table entry flags deterministically
from the segment flag word: present is always set, no-execute is set
exactly when bit 0 of p_flags is clear, and writable is set exactly when
bit 1 of p_flags is set. -/
theorem map_segment_flags_correct (p_flags : Nat) :
    (map_segment_flags p_flags).present = true ∧
    ((map_segment_flags p_flags).no_execute = true ↔ p_flags &&& 0x1 = 0) ∧
    ((map_segment_flags p_flags).writable = true ↔ p_flags &&& 0x2 ≠ 0) := by
  unfold map_segment_flags
  split_ifs with h1 h2 h2 <;>
    simp_all [PteFlags.new, PteFlags.set_present, PteFlags.set_no_execute,
      PteFlags.set_writable]

/-- C4: the byte-slice allocation returns a slice of exactly len bytes in
which every byte reads as zero; in particular every tail of the slice,
such as the part of a loaded segment past filesz, reads as zero. -/
theorem allocate_byte_slice_zeroed (len : Nat) (raw : List Nat) :
    (allocate_byte_slice len raw).length = len ∧
    (∀ b ∈ allocate_byte_slice len raw, b = 0) ∧
    (∀ filesz, ∀ b ∈ (allocate_byte_slice len raw).drop filesz, b = 0) := by
  have h : allocate_byte_slice len raw = List.replicate len 0 := by
    unfold allocate_byte_slice write_bytes
    rw [List.take_append_of_le_length (by simp)]
    simp
  refine ⟨?_, ?_, ?_⟩
  · rw [h]; exact List.length_replicate len 0
  · intro b hb
    rw [h] at hb
    exact List.eq_of_mem_replicate hb
  · intro filesz b hb
    rw [h, List.drop_replicate] at hb
    exact List.eq_of_mem_replicate hb

/-- C5: a segment whose physical load address equals the architecture
fixed address 0x100000 is backed by a fixed-address allocation landing at
exactly 0x100000; every other segment is backed by an any-pages
allocation at the firmware-chosen address. -/
theorem map_segment_fixed_address (s : ProgramHeader) (chosen : Nat) :
    (s.p_paddr = 0x100000 →
      map_segment_allocate_type s = AllocateType.Address 0x100000 ∧
      allocation_base (map_segment_allocate_type s) chosen = 0x100000) ∧
    (s.p_paddr ≠ 0x100000 →
      map_segment_allocate_type s = AllocateType.AnyPages ∧
      allocation_base (map_segment_allocate_type s) chosen = chosen) := by
  constructor
  · intro h
    simp [map_segment_allocate_type, h, allocation_base]
  · intro h
    simp [map_segment_allocate_type, h, allocation_base]

/-- Witness for C5 at two concrete segments, one at the fixed physical
address and one elsewhere. -/
theorem map_segment_fixed_address_witness :
    (map_segment_allocate_type ⟨5, 0x200000, 0x100000, 0x800, 0x1000⟩ =
      AllocateType.Address 0x100000 ∧
      allocation_base (map_segment_allocate_type ⟨5, 0x200000, 0x100000, 0x800, 0x1000⟩)
        0x7000 = 0x100000) ∧
    (map_segment_allocate_type ⟨5, 0x200000, 0x300000, 0x800, 0x1000⟩ =
      AllocateType.AnyPages ∧
      allocation_base (map_segment_allocate_type ⟨5, 0x200000, 0x300000, 0x800, 0x1000⟩)
        0x7000 = 0x7000) :=
  ⟨(map_segment_fixed_address ⟨5, 0x200000, 0x100000, 0x800, 0x1000⟩ 0x7000).1 (by decide),
   (map_segment_fixed_address ⟨5, 0x200000, 0x300000, 0x800, 0x1000⟩ 0x7000).2 (by decide)⟩

/-- Concrete boot context of spec scenario B: reported map size 4096
bytes over 64-byte descriptors, with a firmware exit call that grows the
map by 7 entries, fewer than 8. -/
def scenarioB_context : BootContext :=
  { page_allocator := ⟨[]⟩
    mapper := ⟨0⟩
    firmware := ⟨4096, 64, [], 7⟩ }

/-- C1 counterexample: with a reported map size of 4096 bytes over
64-byte descriptors the snapshot storage is 4352 bytes, headroom for only
4 extra descriptors rather than at least 8, and a growth of 7 entries,
fewer than 8, already makes the snapshot capture fail. -/
theorem exit_headroom_counterexample :
    predicted_map_size 4096 64 = 4096 + 4 * 64 ∧
    predicted_map_size 4096 64 < 4096 + 8 * 64 ∧
    scenarioB_context.firmware.growth_entries < 8 ∧
    scenarioB_context.exit_boot_services = Except.error FirmwareError.bufferTooSmall :=
  ⟨rfl, by decide, by decide, rfl⟩

/-- C1 amended: exit_boot_services allocates snapshot storage of the
reported map size plus headroom for exactly 4 extra descriptors, and the
snapshot capture succeeds whenever the firmware exit call grows the map
by at most 4 entries. -/
theorem exit_headroom_four (ctx : BootContext)
    (h : ctx.firmware.growth_entries ≤ 4) :
    predicted_map_size ctx.firmware.map_size ctx.firmware.entry_size =
      ctx.firmware.map_size + 4 * ctx.firmware.entry_size ∧
    ctx.exit_boot_services = Except.ok
      { page_allocator := ctx.page_allocator
        frame_allocator := LegacyFrameAllocator.new ctx.firmware.final_map
        mapper := ctx.mapper } := by
  refine ⟨rfl, ?_⟩
  unfold BootContext.exit_boot_services
  have hfits : firmware_exit_fits ctx.firmware.map_size ctx.firmware.entry_size
      ctx.firmware.growth_entries
      (predicted_map_size ctx.firmware.map_size ctx.firmware.entry_size) = true := by
    unfold firmware_exit_fits predicted_map_size
    have hm : ctx.firmware.growth_entries * ctx.firmware.entry_size ≤
        4 * ctx.firmware.entry_size :=
      Nat.mul_le_mul_right _ h
    simpa using Nat.add_le_add_left hm ctx.firmware.map_size
  rw [hfits]
  simp

/-- Witness for the amended C1 at the scenario B numbers with a growth of
4 entries. -/
theorem exit_headroom_four_witness :
    predicted_map_size 4096 64 = 4096 + 4 * 64 ∧
    BootContext.exit_boot_services ⟨⟨[]⟩, ⟨0⟩, ⟨4096, 64, [], 4⟩⟩ = Except.ok
      { page_allocator := ⟨[]⟩
        frame_allocator := LegacyFrameAllocator.new []
        mapper := ⟨0⟩ } :=
  exit_headroom_four ⟨⟨[]⟩, ⟨0⟩, ⟨4096, 64, [], 4⟩⟩ (by decide)

/-- C6: a successful Boot to Runtime transition moves the page allocator
and the mapper into the runtime context unchanged and replaces only the
frame allocator, with one built from the captured memory-map snapshot. -/
theorem exit_preserves_allocator_and_mapper (ctx : BootContext) (rc : RuntimeContext)
    (h : ctx.exit_boot_services = Except.ok rc) :
    rc.page_allocator = ctx.page_allocator ∧
    rc.mapper = ctx.mapper ∧
    rc.frame_allocator = LegacyFrameAllocator.new ctx.firmware.final_map := by
  unfold BootContext.exit_boot_services at h
  split at h
  · rw [Except.ok.injEq] at h
    rw [← h]
    exact ⟨rfl, rfl, rfl⟩
  · exact absurd h (by simp)

/-- Witness for C6 at a concrete boot context whose exit call does not
grow the map. -/
theorem exit_preserves_witness :
    (⟨⟨[(0x200000, 0x201000)]⟩, LegacyFrameAllocator.new [⟨0, 4096, RegionKind.usable⟩],
        ⟨0x9000⟩⟩ : RuntimeContext).page_allocator =
      (⟨⟨[(0x200000, 0x201000)]⟩, ⟨0x9000⟩,
        ⟨4096, 64, [⟨0, 4096, RegionKind.usable⟩], 0⟩⟩ : BootContext).page_allocator ∧
    (⟨⟨[(0x200000, 0x201000)]⟩, LegacyFrameAllocator.new [⟨0, 4096, RegionKind.usable⟩],
        ⟨0x9000⟩⟩ : RuntimeContext).mapper =
      (⟨⟨[(0x200000, 0x201000)]⟩, ⟨0x9000⟩,
        ⟨4096, 64, [⟨0, 4096, RegionKind.usable⟩], 0⟩⟩ : BootContext).mapper ∧
    (⟨⟨[(0x200000, 0x201000)]⟩, LegacyFrameAllocator.new [⟨0, 4096, RegionKind.usable⟩],
        ⟨0x9000⟩⟩ : RuntimeContext).frame_allocator =
      LegacyFrameAllocator.new
        (⟨⟨[(0x200000, 0x201000)]⟩, ⟨0x9000⟩,
          ⟨4096, 64, [⟨0, 4096, RegionKind.usable⟩], 0⟩⟩ : BootContext).firmware.final_map :=
  exit_preserves_allocator_and_mapper
    ⟨⟨[(0x200000, 0x201000)]⟩, ⟨0x9000⟩, ⟨4096, 64, [⟨0, 4096, RegionKind.usable⟩], 0⟩⟩
    ⟨⟨[(0x200000, 0x201000)]⟩, LegacyFrameAllocator.new [⟨0, 4096, RegionKind.usable⟩],
      ⟨0x9000⟩⟩
    rfl

/-- C7: when the firmware reports a Bitmask or BltOnly pixel format, the
boot path dies fatally inside frame-buffer discovery, before the logger
is initialised and before any kernel-loading or mapping work begins, so
no partial logger initialisation is left active. -/
theorem fatal_on_unsupported_pixel_format (mode : GopMode)
    (h : mode.pixel_format = GopPixelFormat.Bitmask ∨
      mode.pixel_format = GopPixelFormat.BltOnly) :
    main_boot_phase (some mode) =
      Except.error (PanicReason.unsupportedPixelFormat, ⟨false, false⟩) := by
  rcases h with h | h <;> simp [main_boot_phase, get_frame_buffer, h]

/-- Witness for C7 at a concrete Bitmask graphics mode. -/
theorem fatal_on_unsupported_pixel_format_witness :
    main_boot_phase (some ⟨0xA0000, 0x1D4C00, 640, 480, 640, GopPixelFormat.Bitmask⟩) =
      Except.error (PanicReason.unsupportedPixelFormat, ⟨false, false⟩) :=
  fatal_on_unsupported_pixel_format
    ⟨0xA0000, 0x1D4C00, 640, 480, 640, GopPixelFormat.Bitmask⟩ (Or.inl rfl)

/-- C8: the panic handler writes the diagnostic to the firmware console
exactly when the process-wide system-table slot is still set and to the
framebuffer logger exactly when one was initialised, and then halts the
processor, never handing control back to the firmware. -/
theorem panic_handler_behaviour (slot_set logger_set : Bool) :
    (PanicSink.console ∈ (panic_handler slot_set logger_set).1 ↔ slot_set = true) ∧
    (PanicSink.framebufferLogger ∈ (panic_handler slot_set logger_set).1 ↔
      logger_set = true) ∧
    (panic_handler slot_set logger_set).2 = PanicTerminal.halt ∧
    (panic_handler slot_set logger_set).2 ≠ PanicTerminal.returnToFirmware := by
  cases slot_set <;> cases logger_set <;> decide

/-- C9: every frame buffer the bootloader reports carries a descriptor
with bytes_per_pixel equal to 4 and a pixel format of either Rgb or
Bgr. -/
theorem frame_buffer_info_shape (gop : Option GopMode) (fb : FrameBuffer)
    (h : get_frame_buffer gop = Except.ok (some fb)) :
    fb.info.bytes_per_pixel = 4 ∧
    (fb.info.pixel_format = PixelFormat.Rgb ∨ fb.info.pixel_format = PixelFormat.Bgr) := by
  match gop with
  | none => simp [get_frame_buffer] at h
  | some mode =>
    cases hf : mode.pixel_format <;>
      simp [get_frame_buffer, hf] at h <;>
      rw [← h] <;>
      simp

/-- Witness for C9 at a concrete Bgr graphics mode. -/
theorem frame_buffer_info_shape_witness :
    (FrameBuffer.mk 0xA0000 ⟨0x1D4C00, 640, 480, PixelFormat.Bgr, 4, 640⟩).info.bytes_per_pixel
        = 4 ∧
    ((FrameBuffer.mk 0xA0000 ⟨0x1D4C00, 640, 480, PixelFormat.Bgr, 4, 640⟩).info.pixel_format
        = PixelFormat.Rgb ∨
      (FrameBuffer.mk 0xA0000 ⟨0x1D4C00, 640, 480, PixelFormat.Bgr, 4, 640⟩).info.pixel_format
        = PixelFormat.Bgr) :=
  frame_buffer_info_shape (some ⟨0xA0000, 0x1D4C00, 640, 480, 640, GopPixelFormat.Bgr⟩)
    (FrameBuffer.mk 0xA0000 ⟨0x1D4C00, 640, 480, PixelFormat.Bgr, 4, 640⟩) rfl

/-- C10: with p_memsz at least 1, the unguarded end-address subtractions
in map_segment cannot underflow: both integer results are nonnegative and
agree with the natural-number computation, the end addresses are not
below the start addresses, and the page range from the start page to the
end page is nonempty; with p_memsz zero and address zero the very same
subtraction would go negative, so the precondition is what prevents the
underflow. -/
theorem map_segment_no_underflow (vaddr paddr memsz : Nat) (h : 1 ≤ memsz) :
    0 ≤ virtual_end_inclusive vaddr memsz ∧
    virtual_end_inclusive vaddr memsz = ((vaddr + memsz - 1 : Nat) : Int) ∧
    0 ≤ physical_end_inclusive paddr memsz ∧
    physical_end_inclusive paddr memsz = ((paddr + memsz - 1 : Nat) : Int) ∧
    vaddr ≤ vaddr + memsz - 1 ∧
    paddr ≤ paddr + memsz - 1 ∧
    containing_address vaddr ≤ containing_address (vaddr + memsz - 1) ∧
    virtual_end_inclusive 0 0 < 0 := by
  refine ⟨?_, ?_, ?_, ?_, ?_, ?_, ?_, ?_⟩
  · unfold virtual_end_inclusive; omega
  · unfold virtual_end_inclusive; omega
  · unfold physical_end_inclusive; omega
  · unfold physical_end_inclusive; omega
  · omega
  · omega
  · unfold containing_address
    exact Nat.mul_le_mul_right _ (Nat.div_le_div_right (by omega))
  · unfold virtual_end_inclusive; decide

/-- Witness for C10 at a concrete one-page segment. -/
theorem map_segment_no_underflow_witness :
    0 ≤ virtual_end_inclusive 0x200000 0x1000 ∧
    virtual_end_inclusive 0x200000 0x1000 = ((0x200000 + 0x1000 - 1 : Nat) : Int) ∧
    0 ≤ physical_end_inclusive 0x5000 0x1000 ∧
    physical_end_inclusive 0x5000 0x1000 = ((0x5000 + 0x1000 - 1 : Nat) : Int) ∧
    0x200000 ≤ 0x200000 + 0x1000 - 1 ∧
    0x5000 ≤ 0x5000 + 0x1000 - 1 ∧
    containing_address 0x200000 ≤ containing_address (0x200000 + 0x1000 - 1) ∧
    virtual_end_inclusive 0 0 < 0 :=
  map_segment_no_underflow 0x200000 0x5000 0x1000 (by decide)

end UefiBoot
